import Mathlib

/-
Verification of the HeatmapLossLayer (src/src/caffe/layers/heatmap_loss_layer.cpp),
a Euclidean loss layer over [image] x [channel] x [row] x [column] heatmaps.

Numeric values (the Caffe `Dtype`, instantiated at float/double) are modelled
as exact rationals `ℚ`; machine floating point rounding is outside this model,
so every arithmetic identity below is exact.  The layer's mutable scratch blob
`diff_` is modelled by explicit state passing (`LayerState`).  The CHECK_EQ
macros of glog, which abort the process on failure, are modelled as an
`Except CaffeError` error exit.
-/

namespace HeatmapLoss

/-- Modelled from the spec: the framework's Blob class (`caffe/blob.hpp`) is not
under src/.  Per the spec's data model, a HeatmapTensor is a 4-dimensional array
indexed by (image, channel, row, column) with shape attributes `num_images`,
`num_channels`, `height`, `width`, stored contiguously; `data` gives flat
(linear-offset) read access, and `count` is the total number of elements. -/
structure Blob where
  num : Nat
  channels : Nat
  height : Nat
  width : Nat
  data : Nat → ℚ

/-- Total element count of a blob, the product of its four dimensions
(Caffe's Blob::count()). -/
def Blob.count (b : Blob) : Nat := b.num * b.channels * b.height * b.width

/-- Error kinds named by the spec.  The source's only error exits are the
CHECK_EQ aborts in Reshape, modelled as `shapeMismatch`; `emptyInput` and
`uninitializedBuffer` are declared so the spec's claims about them can be
stated, but no code path of the source produces them. -/
inductive CaffeError
  | shapeMismatch
  | emptyInput
  | uninitializedBuffer
deriving DecidableEq

/-- Mutable layer state: the scratch blob `diff_`.  `diffShape = none` models
the layer before any Reshape call has established a shape (the C++ `diff_` then
has count 0); `diffData` is the buffer contents. -/
structure LayerState where
  diffShape : Option (Nat × Nat × Nat × Nat)
  diffData : Nat → ℚ

/-- The flat offset computed in the forward loop (line 121 of the source):
`idx_img * label_img_size + idx_ch * label_channel_size + i * label_height + j`
where `label_channel_size = label_height * label_width` and
`label_img_size = label_channel_size * num_channels`. -/
def imageIdxCode (num_channels label_height label_width idx_img idx_ch i j : Nat) : Nat :=
  let label_channel_size := label_height * label_width
  let label_img_size := label_channel_size * num_channels
  idx_img * label_img_size + idx_ch * label_channel_size + i * label_height + j

/-- The divisor of the normalization at line 159 of the source:
`num_images * num_channels * label_channel_size`, where `num_images`, `label_height`
and `label_width` are read from bottom[1] and `num_channels` from bottom[0]. -/
def forwardDenominator (b0 b1 : Blob) : Nat :=
  b1.num * b0.channels * (b1.height * b1.width)

/-- Forward_cpu (lines 53-164 of the source): four nested loops over
(image, channel, row, column) accumulate `diff * diff` into `loss`, where
`diff = bottom_pred[image_idx] - gt_pred[image_idx]`; afterwards `loss` is
divided by `num_images * num_channels * label_channel_size` and written to the
top blob.  The visualization branch writes only local display images and is
omitted.  `b0` is bottom[0] (prediction), `b1` is bottom[1] (ground truth). -/
def Forward_cpu (b0 b1 : Blob) : ℚ :=
  let num_images := b1.num
  let label_height := b1.height
  let label_width := b1.width
  let num_channels := b0.channels
  let loss : ℚ :=
    (List.range num_images).foldl (fun acc idx_img =>
      (List.range num_channels).foldl (fun acc idx_ch =>
        (List.range label_height).foldl (fun acc i =>
          (List.range label_width).foldl (fun acc j =>
            let image_idx := imageIdxCode num_channels label_height label_width idx_img idx_ch i j
            let diff := b0.data image_idx - b1.data image_idx
            acc + diff * diff) acc) acc) acc) 0
  loss / ((forwardDenominator b0 b1 : Nat) : ℚ)

/-- The spec's `raw_sum_of_squared_diffs(p, t)`: the sum over all
(image, channel, row, column) indices of `(prediction[idx] - target[idx])^2`,
with the flat offset written exactly as the spec words it:
`image * (channels*height*width) + channel * (height*width) + row * height + col`.
This definition follows the spec's words (for comparison against `Forward_cpu`,
which is translated from the source). -/
def raw_sum_of_squared_diffs (p t : Blob) : ℚ :=
  ∑ img ∈ Finset.range p.num, ∑ ch ∈ Finset.range p.channels,
    ∑ row ∈ Finset.range p.height, ∑ col ∈ Finset.range p.width,
      (p.data (img * (p.channels * p.height * p.width) + ch * (p.height * p.width)
            + row * p.height + col)
        - t.data (img * (p.channels * p.height * p.width) + ch * (p.height * p.width)
            + row * p.height + col)) ^ 2

/-- Reshape (lines 21-36 of the source): CHECK_EQ on channels, height and width
of the two bottom blobs, in that order, then reshape diff_ to bottom[0]'s
dimensions.  Modelled from the spec: the base-class call
`LossLayer::Reshape(bottom, top)` (not under src/) reshapes the top blob to a
scalar and, per the spec's shape contract, contributes no validation beyond
the three checks listed here. -/
def Reshape (b0 b1 : Blob) (s : LayerState) : Except CaffeError LayerState :=
  if b0.channels = b1.channels then
    if b0.height = b1.height then
      if b0.width = b1.width then
        Except.ok ⟨some (b0.num, b0.channels, b0.height, b0.width), s.diffData⟩
      else Except.error CaffeError.shapeMismatch
    else Except.error CaffeError.shapeMismatch
  else Except.error CaffeError.shapeMismatch

/-- The framework's calling order for the forward path: Reshape, then (only
when it did not abort) Forward_cpu. -/
def reshapeThenForward (b0 b1 : Blob) (s : LayerState) :
    Except CaffeError (ℚ × LayerState) :=
  match Reshape b0 b1 s with
  | Except.error e => Except.error e
  | Except.ok s1 => Except.ok (Forward_cpu b0 b1, s1)

/-- Modelled from the spec: `caffe_sub(n, a, b, y)` (caffe/util/math_functions,
not under src/) writes `y[i] = a[i] - b[i]` for every `i < n`, leaving the rest
of `y` untouched — the spec's `DifferenceBuffer[idx] = prediction[idx] - target[idx]`
for every element of the full contiguous range. -/
def caffe_sub (n : Nat) (a b y : Nat → ℚ) : Nat → ℚ :=
  fun i => if i < n then a i - b i else y i

/-- Modelled from the spec: `memcpy(dst, src, sizeof(Dtype) * n)` copies the
first `n` elements of `src` over `dst` verbatim, leaving the rest of `dst`
untouched. -/
def memcpyRange (n : Nat) (src dst : Nat → ℚ) : Nat → ℚ :=
  fun i => if i < n then src i else dst i

/-- The observable result of a backward pass: the diff_ buffer contents and
the two bottom gradients after the call. -/
structure BackwardOutput where
  diff : Nat → ℚ
  grad0 : Nat → ℚ
  grad1 : Nat → ℚ

/-- The computation performed by Backward_cpu (lines 301-322 of the source):
`count = bottom[0]->count()`; `caffe_sub(count, bottom[0], bottom[1], diff_)`;
then memcpy diff_ into bottom[0]'s and bottom[1]'s gradient, `count` entries
each.  `g0p` and `g1p` are the prior contents of the two gradient buffers. -/
def backwardResult (b0 b1 : Blob) (s : LayerState) (g0p g1p : Nat → ℚ) :
    BackwardOutput :=
  let count := b0.count
  let diff := caffe_sub count b0.data b1.data s.diffData
  ⟨diff, memcpyRange count diff g0p, memcpyRange count diff g1p⟩

/-- Backward_cpu as an entry point: the source contains no error exit and no
check of any kind (it ignores `top` and `propagate_down`), so it always
returns `ok` with the computed buffers. -/
def Backward_cpu (b0 b1 : Blob) (s : LayerState) (g0p g1p : Nat → ℚ) :
    Except CaffeError BackwardOutput :=
  Except.ok (backwardResult b0 b1 s g0p g1p)

/-- The framework's calling order for the backward path: Reshape, then (only
when it did not abort) Backward_cpu. -/
def reshapeThenBackward (b0 b1 : Blob) (s : LayerState) (g0p g1p : Nat → ℚ) :
    Except CaffeError BackwardOutput :=
  match Reshape b0 b1 s with
  | Except.error e => Except.error e
  | Except.ok s1 => Backward_cpu b0 b1 s1 g0p g1p

/-- Forward_gpu (lines 326-331 of the source): its body is a single call to
Forward_cpu. -/
def Forward_gpu (b0 b1 : Blob) : ℚ :=
  Forward_cpu b0 b1

/-- Backward_gpu (lines 335-340 of the source): its body is a single call to
Backward_cpu. -/
def Backward_gpu (b0 b1 : Blob) (s : LayerState) (g0p g1p : Nat → ℚ) :
    Except CaffeError BackwardOutput :=
  Backward_cpu b0 b1 s g0p g1p

/-- Forward_cpu as a transition on the layer state: the source's Forward_cpu
reads only the bottom blobs and writes only the top scalar and local
visualization images; it never reads or writes diff_, so the state passes
through unchanged. -/
def forwardStep (b0 b1 : Blob) (s : LayerState) : ℚ × LayerState :=
  (Forward_cpu b0 b1, s)

/-- Folding addition of `f` over `List.range n` starting from `a` is `a` plus
the sum of `f` over `Finset.range n`. -/
theorem foldl_add_range (f : Nat → ℚ) (a : ℚ) (n : Nat) :
    (List.range n).foldl (fun acc i => acc + f i) a = a + ∑ i ∈ Finset.range n, f i := by
  induction n with
  | zero => simp
  | succ n ih =>
      rw [List.range_succ, List.foldl_append, ih, Finset.sum_range_succ]
      simp [List.foldl, add_assoc]

/-- The nested accumulation loop of Forward_cpu, as a quadruple finite sum
over the loop ranges. -/
def sumLoss (b0 b1 : Blob) : ℚ :=
  ∑ img ∈ Finset.range b1.num, ∑ ch ∈ Finset.range b0.channels,
    ∑ i ∈ Finset.range b1.height, ∑ j ∈ Finset.range b1.width,
      (b0.data (imageIdxCode b0.channels b1.height b1.width img ch i j)
        - b1.data (imageIdxCode b0.channels b1.height b1.width img ch i j)) *
      (b0.data (imageIdxCode b0.channels b1.height b1.width img ch i j)
        - b1.data (imageIdxCode b0.channels b1.height b1.width img ch i j))

/-- Forward_cpu computes the quadruple sum of squared differences divided by
the normalization denominator. -/
theorem Forward_cpu_eq_sumLoss (b0 b1 : Blob) :
    Forward_cpu b0 b1 = sumLoss b0 b1 / ((forwardDenominator b0 b1 : Nat) : ℚ) := by
  unfold Forward_cpu sumLoss
  simp only [foldl_add_range, zero_add]

/-- The code's flat offset equals the spec's flattening formula
`image * (channels*height*width) + channel * (height*width) + row * height + col`. -/
theorem imageIdxCode_eq (C H W img ch i j : Nat) :
    imageIdxCode C H W img ch i j = img * (C * H * W) + ch * (H * W) + i * H + j := by
  unfold imageIdxCode
  ring

/-- Concrete prediction blob for the end-to-end scenario: 1 image, 1 channel,
2 x 2, values [[1,2],[3,4]] in flat order. -/
def predBlob : Blob :=
  ⟨1, 1, 2, 2, fun i =>
    if i = 0 then 1 else if i = 1 then 2 else if i = 2 then 3 else if i = 3 then 4 else 0⟩

/-- Concrete target blob for the end-to-end scenario: 1 image, 1 channel,
2 x 2, values [[1,1],[1,1]] in flat order (constantly 1). -/
def targBlob : Blob :=
  ⟨1, 1, 2, 2, fun _ => 1⟩

/-- Layer state before any Reshape call: no shape established, buffer zeroed. -/
def state0 : LayerState :=
  ⟨none, fun _ => 0⟩

/-- The all-zero prior contents of a gradient buffer. -/
def zeroFn : Nat → ℚ :=
  fun _ => 0

/-- C1: for every pair of same-shaped tensors, Forward_cpu returns the sum over
all (image, channel, row, column) indices of `(prediction[idx] - target[idx])^2`
divided by `num_images * num_channels * height * width`, exactly. -/
theorem forward_is_normalized_sum (b0 b1 : Blob)
    (hn : b0.num = b1.num) (_hc : b0.channels = b1.channels)
    (hh : b0.height = b1.height) (hw : b0.width = b1.width) :
    Forward_cpu b0 b1 =
      raw_sum_of_squared_diffs b0 b1 /
        ((b0.num * b0.channels * (b0.height * b0.width) : Nat) : ℚ) := by
  rw [Forward_cpu_eq_sumLoss]
  unfold sumLoss raw_sum_of_squared_diffs forwardDenominator
  simp only [imageIdxCode_eq, pow_two]
  rw [hn, hh, hw]

/-- Witness for C1 at the concrete 2 x 2 blobs. -/
theorem forward_is_normalized_sum_witness :
    Forward_cpu predBlob targBlob =
      raw_sum_of_squared_diffs predBlob targBlob /
        ((predBlob.num * predBlob.channels * (predBlob.height * predBlob.width) : Nat) : ℚ) :=
  forward_is_normalized_sum predBlob targBlob rfl rfl rfl rfl

/-- C2: the flat offset read from both tensors by the forward pass, for loop
indices (img, ch, i, j) given prediction `b0` and target `b1`, is
`img * (channels*height*width) + ch * (height*width) + i * height + j` — the
row coordinate is multiplied by the height, not the width. -/
theorem forward_flat_offset (b0 b1 : Blob) (img ch i j : Nat) :
    imageIdxCode b0.channels b1.height b1.width img ch i j =
      img * (b0.channels * b1.height * b1.width) + ch * (b1.height * b1.width)
        + i * b1.height + j :=
  imageIdxCode_eq b0.channels b1.height b1.width img ch i j

/-- C3: for every pair of same-shaped tensors, backward writes
`prediction[idx] - target[idx]` into the DifferenceBuffer at every flat index
over the full tensor and copies that buffer verbatim as both gradients —
no negation for the target, no factor of 2, no normalization. -/
theorem backward_diff_and_verbatim_copies (b0 b1 : Blob) (s : LayerState)
    (g0p g1p : Nat → ℚ) (idx : Nat)
    (_hn : b0.num = b1.num) (_hc : b0.channels = b1.channels)
    (_hh : b0.height = b1.height) (_hw : b0.width = b1.width)
    (hidx : idx < b0.count) :
    Backward_cpu b0 b1 s g0p g1p = Except.ok (backwardResult b0 b1 s g0p g1p) ∧
      (backwardResult b0 b1 s g0p g1p).diff idx = b0.data idx - b1.data idx ∧
      (backwardResult b0 b1 s g0p g1p).grad0 idx =
        (backwardResult b0 b1 s g0p g1p).diff idx ∧
      (backwardResult b0 b1 s g0p g1p).grad1 idx =
        (backwardResult b0 b1 s g0p g1p).diff idx := by
  refine ⟨rfl, ?_, ?_, ?_⟩ <;> simp [backwardResult, caffe_sub, memcpyRange, hidx]

/-- Witness for C3 at the 2 x 2 blobs and flat index 2. -/
theorem backward_diff_and_verbatim_copies_witness :
    Backward_cpu predBlob targBlob state0 zeroFn zeroFn =
        Except.ok (backwardResult predBlob targBlob state0 zeroFn zeroFn) ∧
      (backwardResult predBlob targBlob state0 zeroFn zeroFn).diff 2 =
        predBlob.data 2 - targBlob.data 2 ∧
      (backwardResult predBlob targBlob state0 zeroFn zeroFn).grad0 2 =
        (backwardResult predBlob targBlob state0 zeroFn zeroFn).diff 2 ∧
      (backwardResult predBlob targBlob state0 zeroFn zeroFn).grad1 2 =
        (backwardResult predBlob targBlob state0 zeroFn zeroFn).diff 2 :=
  backward_diff_and_verbatim_copies predBlob targBlob state0 zeroFn zeroFn 2
    rfl rfl rfl rfl (by decide)

/-- C4: the end-to-end 1-image, 1-channel, 2 x 2 scenario: prediction
[[1,2],[3,4]] against target [[1,1],[1,1]] gives raw sum of squares 14,
normalized loss 14/4 = 3.5, and gradient [[0,1],[2,3]] for both prediction
and target. -/
theorem end_to_end_2x2 :
    raw_sum_of_squared_diffs predBlob targBlob = 14 ∧
      Forward_cpu predBlob targBlob = 7 / 2 ∧
      Backward_cpu predBlob targBlob state0 zeroFn zeroFn =
        Except.ok (backwardResult predBlob targBlob state0 zeroFn zeroFn) ∧
      (backwardResult predBlob targBlob state0 zeroFn zeroFn).grad0 0 = 0 ∧
      (backwardResult predBlob targBlob state0 zeroFn zeroFn).grad0 1 = 1 ∧
      (backwardResult predBlob targBlob state0 zeroFn zeroFn).grad0 2 = 2 ∧
      (backwardResult predBlob targBlob state0 zeroFn zeroFn).grad0 3 = 3 ∧
      (backwardResult predBlob targBlob state0 zeroFn zeroFn).grad1 0 = 0 ∧
      (backwardResult predBlob targBlob state0 zeroFn zeroFn).grad1 1 = 1 ∧
      (backwardResult predBlob targBlob state0 zeroFn zeroFn).grad1 2 = 2 ∧
      (backwardResult predBlob targBlob state0 zeroFn zeroFn).grad1 3 = 3 := by
  have hraw : raw_sum_of_squared_diffs predBlob targBlob = 14 := by
    unfold raw_sum_of_squared_diffs
    norm_num [predBlob, targBlob, show (2 : Nat) = 1 + 1 from rfl, Finset.sum_range_succ]
  refine ⟨hraw, ?_, rfl, ?_, ?_, ?_, ?_, ?_, ?_, ?_, ?_⟩
  · rw [Forward_cpu_eq_sumLoss]
    have hsum : sumLoss predBlob targBlob = 14 := by
      unfold sumLoss
      norm_num [predBlob, targBlob, imageIdxCode, show (2 : Nat) = 1 + 1 from rfl,
        Finset.sum_range_succ]
    rw [hsum]
    norm_num [forwardDenominator, predBlob, targBlob]
  all_goals norm_num [backwardResult, caffe_sub, memcpyRange, Blob.count, predBlob, targBlob]

/-- Prediction-side blob with 2 channels, used to exhibit a channel mismatch. -/
def mismatchBlobA : Blob :=
  ⟨1, 2, 2, 2, fun _ => 0⟩

/-- Target-side blob with 3 channels, used to exhibit a channel mismatch. -/
def mismatchBlobB : Blob :=
  ⟨1, 3, 2, 2, fun _ => 0⟩

/-- C5: for every pair of tensors whose channels, height, or width disagree,
Reshape fails with a ShapeMismatch error, and both the forward and the
backward pipeline stop at that failure with no loss or gradient computed. -/
theorem reshape_mismatch_aborts (b0 b1 : Blob) (s : LayerState) (g0p g1p : Nat → ℚ)
    (h : b0.channels ≠ b1.channels ∨ b0.height ≠ b1.height ∨ b0.width ≠ b1.width) :
    Reshape b0 b1 s = Except.error CaffeError.shapeMismatch ∧
      reshapeThenForward b0 b1 s = Except.error CaffeError.shapeMismatch ∧
      reshapeThenBackward b0 b1 s g0p g1p = Except.error CaffeError.shapeMismatch := by
  have hr : Reshape b0 b1 s = Except.error CaffeError.shapeMismatch := by
    unfold Reshape
    rcases h with h | h | h
    · simp [h]
    · by_cases hc : b0.channels = b1.channels <;> simp [hc, h]
    · by_cases hc : b0.channels = b1.channels <;>
        by_cases hh : b0.height = b1.height <;> simp [hc, hh, h]
  refine ⟨hr, ?_, ?_⟩ <;> simp [reshapeThenForward, reshapeThenBackward, hr]

/-- Witness for C5 at a concrete channel mismatch (2 channels against 3). -/
theorem reshape_mismatch_aborts_witness :
    Reshape mismatchBlobA mismatchBlobB state0 = Except.error CaffeError.shapeMismatch ∧
      reshapeThenForward mismatchBlobA mismatchBlobB state0 =
        Except.error CaffeError.shapeMismatch ∧
      reshapeThenBackward mismatchBlobA mismatchBlobB state0 zeroFn zeroFn =
        Except.error CaffeError.shapeMismatch :=
  reshape_mismatch_aborts mismatchBlobA mismatchBlobB state0 zeroFn zeroFn
    (Or.inl (by decide))

/-- Blob with num_images = 0 (and channels 1, height 2, width 2), used to
exhibit the empty-input behavior. -/
def emptyBlob : Blob :=
  ⟨0, 1, 2, 2, fun _ => 0⟩

/-- C6 counterexample: on an input with num_images = 0, the pipeline does not
raise EmptyInput; the forward denominator is 0, the division by zero is carried
out anyway (NaN in IEEE float; 0 in this exact-rational model), and the result
is returned as an ordinary loss value. -/
theorem forward_empty_no_error :
    reshapeThenForward emptyBlob emptyBlob state0 ≠
        Except.error CaffeError.emptyInput ∧
      forwardDenominator emptyBlob emptyBlob = 0 ∧
      Forward_cpu emptyBlob emptyBlob = 0 ∧
      reshapeThenForward emptyBlob emptyBlob state0 =
        Except.ok (0, ⟨some (0, 1, 2, 2), state0.diffData⟩) := by
  have hf : Forward_cpu emptyBlob emptyBlob = 0 := by
    rw [Forward_cpu_eq_sumLoss]
    norm_num [forwardDenominator, emptyBlob]
  have hr : Reshape emptyBlob emptyBlob state0 =
      Except.ok ⟨some (0, 1, 2, 2), state0.diffData⟩ := by
    unfold Reshape
    norm_num [emptyBlob]
  have hok : reshapeThenForward emptyBlob emptyBlob state0 =
      Except.ok (0, ⟨some (0, 1, 2, 2), state0.diffData⟩) := by
    unfold reshapeThenForward
    rw [hr]
    simp [hf]
  exact ⟨by rw [hok]; exact fun h => Except.noConfusion h, by norm_num [forwardDenominator, emptyBlob], hf, hok⟩

/-- C6 amended: whenever the two blobs agree on channels, height and width but
num_images (or a spatial dimension) is zero, Reshape succeeds, no EmptyInput
error is raised, and Forward_cpu divides by the zero denominator — NaN in IEEE
float, 0 in this exact-rational model — returning that value as the loss. -/
theorem forward_empty_divides_by_zero (b0 b1 : Blob) (s : LayerState)
    (hc : b0.channels = b1.channels) (hh : b0.height = b1.height)
    (hw : b0.width = b1.width)
    (hz : b1.num = 0 ∨ b1.height = 0 ∨ b1.width = 0) :
    forwardDenominator b0 b1 = 0 ∧
      Forward_cpu b0 b1 = 0 ∧
      reshapeThenForward b0 b1 s =
        Except.ok (0, ⟨some (b0.num, b0.channels, b0.height, b0.width), s.diffData⟩) := by
  have hd : forwardDenominator b0 b1 = 0 := by
    unfold forwardDenominator
    rcases hz with h | h | h <;> simp [h]
  have hf : Forward_cpu b0 b1 = 0 := by
    rw [Forward_cpu_eq_sumLoss, hd]
    simp
  refine ⟨hd, hf, ?_⟩
  unfold reshapeThenForward Reshape
  simp [hc, hh, hw, hf]

/-- Witness for the amended C6 at the concrete zero-image blob. -/
theorem forward_empty_divides_by_zero_witness :
    forwardDenominator emptyBlob emptyBlob = 0 ∧
      Forward_cpu emptyBlob emptyBlob = 0 ∧
      reshapeThenForward emptyBlob emptyBlob state0 =
        Except.ok (0, ⟨some (emptyBlob.num, emptyBlob.channels, emptyBlob.height,
          emptyBlob.width), state0.diffData⟩) :=
  forward_empty_divides_by_zero emptyBlob emptyBlob state0 rfl rfl rfl (Or.inl rfl)

/-- C7 counterexample: invoked on the pre-Reshape state (no shape established),
Backward_cpu does not raise UninitializedBuffer; it returns ok and the
gradients are fully computed (at flat index 2 the gradient is
prediction - target = 3 - 1 = 2). -/
theorem backward_uninitialized_no_error :
    state0.diffShape = none ∧
      Backward_cpu predBlob targBlob state0 zeroFn zeroFn ≠
        Except.error CaffeError.uninitializedBuffer ∧
      (backwardResult predBlob targBlob state0 zeroFn zeroFn).grad0 2 = 2 := by
  refine ⟨rfl, fun h => Except.noConfusion h, ?_⟩
  norm_num [backwardResult, caffe_sub, memcpyRange, Blob.count, predBlob, targBlob]

/-- C7 amended: Backward_cpu performs no initialization check: even when no
shape-establishing Reshape has occurred (diff shape unset), it returns the
computed difference buffer and gradients and never returns an error. -/
theorem backward_no_init_check (b0 b1 : Blob) (s : LayerState)
    (g0p g1p : Nat → ℚ) (_hs : s.diffShape = none) :
    Backward_cpu b0 b1 s g0p g1p = Except.ok (backwardResult b0 b1 s g0p g1p) ∧
      ∀ e, Backward_cpu b0 b1 s g0p g1p ≠ Except.error e := by
  exact ⟨rfl, fun e h => Except.noConfusion h⟩

/-- Witness for the amended C7 at the pre-Reshape state. -/
theorem backward_no_init_check_witness :
    Backward_cpu predBlob targBlob state0 zeroFn zeroFn =
      Except.ok (backwardResult predBlob targBlob state0 zeroFn zeroFn) :=
  (backward_no_init_check predBlob targBlob state0 zeroFn zeroFn rfl).1

/-- C8: calling forward twice in succession with identical inputs produces an
identical loss value both times, and forward leaves the diff_ buffer (the
layer state) unmodified. -/
theorem forward_idempotent (b0 b1 : Blob) (s : LayerState) :
    (forwardStep b0 b1 (forwardStep b0 b1 s).2).1 = (forwardStep b0 b1 s).1 ∧
      (forwardStep b0 b1 (forwardStep b0 b1 s).2).2 = s :=
  ⟨rfl, rfl⟩

/-- C9: the GPU entry points delegate to the CPU implementations, so the GPU
forward pass produces the same loss and the GPU backward pass the same
gradients as the CPU passes, on every input. -/
theorem gpu_delegates_to_cpu (b0 b1 : Blob) (s : LayerState) (g0p g1p : Nat → ℚ) :
    Forward_gpu b0 b1 = Forward_cpu b0 b1 ∧
      Backward_gpu b0 b1 s g0p g1p = Backward_cpu b0 b1 s g0p g1p :=
  ⟨rfl, rfl⟩

/-- C10: shape validation constrains only channels, height and width — two
blobs differing in num_images pass Reshape without error — and the forward
pass reads num_images, height and width from the target blob and the channel
count (and data) from the prediction blob: its result is unchanged when the
prediction is replaced by any blob with the same channels and data, and the
target by any blob with the same num, height, width and data. -/
theorem reshape_ignores_num_and_forward_dim_sources (b0 b1 b2 b3 : Blob)
    (s : LayerState)
    (hc : b0.channels = b1.channels) (hh : b0.height = b1.height)
    (hw : b0.width = b1.width)
    (hc2 : b2.channels = b0.channels) (hd2 : b2.data = b0.data)
    (hn3 : b3.num = b1.num) (hh3 : b3.height = b1.height)
    (hw3 : b3.width = b1.width) (hd3 : b3.data = b1.data) :
    Reshape b0 b1 s =
        Except.ok ⟨some (b0.num, b0.channels, b0.height, b0.width), s.diffData⟩ ∧
      Forward_cpu b2 b3 = Forward_cpu b0 b1 := by
  constructor
  · unfold Reshape
    simp [hc, hh, hw]
  · unfold Forward_cpu forwardDenominator
    rw [hc2, hd2, hn3, hh3, hw3, hd3]

/-- Prediction-side blob with 2 images, used for the num-mismatch witness. -/
def numBlobA : Blob :=
  ⟨2, 1, 2, 2, fun _ => 0⟩

/-- Target-side blob with 5 images, used for the num-mismatch witness. -/
def numBlobB : Blob :=
  ⟨5, 1, 2, 2, fun _ => 0⟩

/-- Witness for C10 at blobs whose num_images differ (2 against 5). -/
theorem reshape_ignores_num_and_forward_dim_sources_witness :
    Reshape numBlobA numBlobB state0 =
        Except.ok ⟨some (numBlobA.num, numBlobA.channels, numBlobA.height,
          numBlobA.width), state0.diffData⟩ ∧
      Forward_cpu numBlobA numBlobB = Forward_cpu numBlobA numBlobB :=
  reshape_ignores_num_and_forward_dim_sources numBlobA numBlobB numBlobA numBlobB
    state0 rfl rfl rfl rfl rfl rfl rfl rfl rfl

end HeatmapLoss
